import Mathlib

/-!
Verification development for the OpenMeter → Resend usage-alert webhook
(`app.py`).

The Python program is shallowly embedded: JSON/Python values are modelled by
`JValue` (Python `int` and `float` kept distinct; a float is modelled as the
exact rational value of its decimal literal), Python exceptions by
`Except PyErr`, and the two network collaborators — the OpenMeter customer
lookup and the Resend send call — by explicit parameters of the handler.
-/

/-- Python/JSON values as seen by the webhook handler. -/
inductive JValue where
  | jnull
  | jbool (b : Bool)
  | jint (n : ℤ)
  | jfloat (q : ℚ)
  | jstr (s : String)
  | jarr (xs : List JValue)
  | jobj (fields : List (String × JValue))

open JValue

/-- Python truthiness: `None`, `False`, `0`, `0.0`, `""`, `[]`, `{}` are falsy. -/
def pyTruthy : JValue → Bool
  | jnull => false
  | jbool b => b
  | jint n => n != 0
  | jfloat q => q != 0
  | jstr s => s != ""
  | jarr xs => !xs.isEmpty
  | jobj fs => !fs.isEmpty

/-- Exceptions that the embedded code can raise. -/
inductive PyErr where
  | attributeError
  | typeError
deriving DecidableEq

/-- Dictionary lookup, `None` when the key is absent (Python `dict.get`). -/
def jobjGet : List (String × JValue) → String → JValue
  | [], _ => jnull
  | (k, v) :: rest, key => if k = key then v else jobjGet rest key

/-- `x.get(k)`: dictionary lookup on a dict, `AttributeError` on any other value. -/
def pyGet : JValue → String → Except PyErr JValue
  | jobj fs, k => .ok (jobjGet fs k)
  | _, _ => .error .attributeError

/-- Python `a or b`, with both operands already evaluated. -/
def pyOrD (a b : JValue) : JValue := if pyTruthy a then a else b

/-- Python `v == t` where `t` is a string: values of other types compare unequal. -/
def pyEqStr (v : JValue) (t : String) : Bool :=
  match v with
  | jstr s => s == t
  | _ => false

/-- Round the fraction `n / d` (with `d > 0`) to the nearest integer, ties to
even — the rounding mode of Python `round` on floats.  Stated on the raw
components so that it evaluates inside the kernel. -/
def roundHE (n : ℤ) (d : ℕ) : ℤ :=
  let f := Int.fdiv n d
  let r2 := 2 * (n - f * d)
  if r2 < d then f
  else if (d : ℤ) < r2 then f + 1
  else if f % 2 = 0 then f else f + 1

/-- Python `round(q)` for a float value `q`. -/
def roundHalfEven (q : ℚ) : ℤ := roundHE q.num q.den

/-- `math.isclose(w, q, rel_tol=0, abs_tol=0.01)` with integer `w`, i.e.
`|w - q| ≤ 1/100`, computed on the fraction components. -/
def iscloseCent (w : ℤ) (q : ℚ) : Bool :=
  decide (100 * (w * (q.den : ℤ) - q.num).natAbs ≤ q.den)

/-- Decimal digits of the fraction `r / d` in `[0,1)`, at most `k` of them,
trailing zeros dropped. -/
def fracDigitsAux : Nat → Nat → Nat → String
  | 0, _, _ => ""
  | k + 1, r, d =>
    if r = 0 then ""
    else
      let r10 := r * 10
      toString (r10 / d) ++ fracDigitsAux k (r10 % d) d

/-- Python `str()` of a float, for floats whose value is a (short) decimal
literal: `str(90.0) = "90.0"`, `str(0.004) = "0.004"`. -/
def floatStr (q : ℚ) : String :=
  let sign := if q.num < 0 then "-" else ""
  let m := q.num.natAbs
  let ip := m / q.den
  let r := m % q.den
  if r = 0 then sign ++ toString ip ++ ".0"
  else sign ++ toString ip ++ "." ++ fracDigitsAux 17 r q.den

/-- Python `f"{q:.2f}"`: fixed two decimal places, rounding half to even at the
second decimal. -/
def fmt2 (q : ℚ) : String :=
  let c := roundHE (100 * q.num) q.den
  let sign := if c < 0 then "-" else ""
  let m := c.natAbs
  sign ++ toString (m / 100) ++ "." ++ (if m % 100 < 10 then "0" else "") ++ toString (m % 100)

mutual

/-- Python `str()`. -/
def pyStr : JValue → String
  | jstr s => s
  | v => pyRepr v

/-- Python `repr()` (escaping of special characters inside strings is not
modelled; no value the program renders contains any). -/
def pyRepr : JValue → String
  | jnull => "None"
  | jbool true => "True"
  | jbool false => "False"
  | jint n => toString n
  | jfloat q => floatStr q
  | jstr s => "\x27" ++ s ++ "\x27"
  | jarr xs => "[" ++ pyReprElems xs ++ "]"
  | jobj fs => "\x7b" ++ pyReprFields fs ++ "\x7d"

def pyReprElems : List JValue → String
  | [] => ""
  | [x] => pyRepr x
  | x :: y :: rest => pyRepr x ++ ", " ++ pyReprElems (y :: rest)

def pyReprFields : List (String × JValue) → String
  | [] => ""
  | [(k, v)] => "\x27" ++ k ++ "\x27: " ++ pyRepr v
  | (k, v) :: f :: rest => "\x27" ++ k ++ "\x27: " ++ pyRepr v ++ ", " ++ pyReprFields (f :: rest)

end

/-- Bool test: is `needle` a leading segment of `hay`? -/
def leadSeg : List Char → List Char → Bool
  | [], _ => true
  | _ :: _, [] => false
  | a :: as, b :: bs => a == b && leadSeg as bs

/-- Bool test: does `hay` contain `needle` as a contiguous segment? -/
def segIn (needle : List Char) : List Char → Bool
  | [] => needle.isEmpty
  | c :: rest => leadSeg needle (c :: rest) || segIn needle rest

/-- Substring containment on strings. -/
def strContains (hay needle : String) : Bool := segIn needle.toList hay.toList

/-- The characters stripped by Python `str.strip()` with no argument. -/
def pyIsSpace (c : Char) : Bool :=
  c == ' ' || c == '\t' || c == '\n' || c == '\r' || c == '\x0b' || c == '\x0c'

/-- Python `s.strip()`. -/
def pyStrip (s : String) : String :=
  String.mk (((s.toList.dropWhile pyIsSpace).reverse.dropWhile pyIsSpace).reverse)

/-- Python `s.replace("-", "")`: drop every dash. -/
def stripDashes (s : String) : String :=
  String.mk (s.toList.filter (fun c => c != '-'))

/-- Default of `os.getenv("NABRAH_DASHBOARD_URL", ...)` (line 21). -/
def DASHBOARD_URL : String := "https://app.nabrah.ai"

/-- Default of `os.getenv("SUPPORT_EMAIL", ...)` (line 22). -/
def SUPPORT_EMAIL : String := "support@nabrah.ai"

/-- Default of `os.getenv("ALERT_FALLBACK_EMAIL", ...)` (line 25): the static
fallback recipient used when no customer email can be resolved. -/
def FALLBACK_EMAIL : String := "aalguraini@dscan.ai"

/-- Line 29. -/
def OPENMETER_BASE : String := "https://openmeter.cloud/api/v1"

/-- The `timeout=15` argument of the `requests.get` call (line 45), seconds. -/
def OM_TIMEOUT_SECONDS : Nat := 15

/-- The URL requested by `om_get_customer` (line 37). -/
def om_customer_url (customer_key : String) : String :=
  OPENMETER_BASE ++ "/customers/" ++ customer_key

/-- Outcome of the `requests.get` call in `om_get_customer`, as observed by the
code: either the call raised (transport error, timeout, redirect loop, …), or
it produced a response with a final status code and a body whose JSON parse
(`r.json()`) either succeeds with a value or raises. -/
inductive HttpResult where
  | exn
  | resp (status : Nat) (body : Except Unit JValue)

/-- `requests.Response.ok`: status code below 400. -/
def response_ok (status : Nat) : Bool := status < 400

/-- `om_get_customer` (lines 35–54).  The whole request is wrapped in
`try/except Exception`, so every failure path returns `None`. -/
def om_get_customer (res : HttpResult) : Option JValue :=
  match res with
  | .exn => none
  | .resp status body =>
    if response_ok status then
      match body with
      | .ok j => some j
      | .error _ => none
    else none

/-- `pick_email` (lines 57–72): choose a destination address from the OpenMeter
customer record — `primaryEmail`, then `metadata.email`, then the fallback. -/
def pick_email (customer : Option JValue) : Except PyErr (JValue × String) := do
  match customer with
  | none => pure (jstr FALLBACK_EMAIL, "fallback(no customer)")
  | some c =>
    if !pyTruthy c then pure (jstr FALLBACK_EMAIL, "fallback(no customer)")
    else do
      let pe ← pyGet c "primaryEmail"
      if pyTruthy pe then pure (pe, "primaryEmail")
      else
        let meta := pyOrD (← pyGet c "metadata") (jobj [])
        match meta with
        | jobj mf =>
          let em := jobjGet mf "email"
          if pyTruthy em then pure (em, "metadata.email")
          else pure (jstr FALLBACK_EMAIL, "fallback(no email)")
        | _ => pure (jstr FALLBACK_EMAIL, "fallback(no email)")

/-- `project_name_from` (lines 75–82). -/
def project_name_from (customer : Option JValue) (subject : JValue) :
    Except PyErr String := do
  let n ← (match customer with
    | some c => if pyTruthy c then pyGet c "name" else pure jnull
    | none => pure jnull)
  if pyTruthy n then
    pure (pyStrip (pyStr n))
  else
    let d ← (if pyTruthy subject then pyGet subject "displayName" else pure jnull)
    if pyTruthy d then
      pure (pyStrip (pyStr d))
    else
      let i ← (if pyTruthy subject then pyGet subject "id" else pure jnull)
      if pyTruthy i then
        pure (String.mk ((pyStr i).toList.take 12) ++ "…")
      else
        pure "Your project"

/-- The `f"{whole} {unit}"` rendering in `nice_minutes` (lines 90–91). -/
def nice_whole (whole : ℤ) : String :=
  toString whole ++ (if whole = 1 then " minute" else " minutes")

/-- `nice_minutes` (lines 85–92), at its call sites applied to arbitrary JSON
values: `None` renders as "unknown", numbers (and bools) go through
`round`/`isclose`, anything else raises `TypeError` inside `round`. -/
def nice_minutes (val : JValue) : Except PyErr String :=
  match val with
  | jnull => .ok "unknown"
  | jbool b => .ok (nice_whole (if b then 1 else 0))
  | jint n => .ok (nice_whole n)
  | jfloat q =>
    let whole := roundHalfEven q
    if iscloseCent whole q then .ok (nice_whole whole)
    else .ok (fmt2 q ++ " minutes")
  | _ => .error .typeError

/-- Line 106: feature display name, else internal key, else `"Call Minutes"`. -/
def feature_name (data : JValue) : Except PyErr JValue := do
  let f := pyOrD (← pyGet data "feature") (jobj [])
  let n ← pyGet f "name"
  if pyTruthy n then pure n
  else
    let k ← pyGet f "key"
    pure (pyOrD k (jstr "Call Minutes"))

/-- Line 107. -/
def meter_slug (data : JValue) : Except PyErr JValue := do
  let f := pyOrD (← pyGet data "feature") (jobj [])
  let m ← pyGet f "meterSlug"
  pure (pyOrD m (jstr "call_minutes"))

/-- Lines 114–118: subject key (`id` or `key` or `""`), dash-stripped customer
key, and the conditional OpenMeter lookup. -/
def resolve_customer (subject : JValue) (lookup : String → HttpResult) :
    Except PyErr (Option JValue) := do
  let sid ← pyGet subject "id"
  let subject_key ←
    if pyTruthy sid then pure sid
    else do
      let sk ← pyGet subject "key"
      pure (pyOrD sk (jstr ""))
  let customer_key ←
    if pyTruthy subject_key then
      match subject_key with
      | jstr s => pure (stripDashes s)
      | _ => Except.error PyErr.attributeError
    else pure ""
  pure (if customer_key ≠ "" then om_get_customer (lookup customer_key) else none)

/-- Lines 114–120 as one function: the complete recipient-resolution step of
the handler (customer lookup followed by `pick_email`). -/
def resolve (subject : JValue) (lookup : String → HttpResult) :
    Except PyErr (JValue × String) := do
  let customer ← resolve_customer subject lookup
  pick_email customer

/-- Line 125: `percent_text = f"{threshold_val}%"`. -/
def percent_text (threshold_val : JValue) : String := pyStr threshold_val ++ "%"

/-- Line 126. -/
def subject_line_of (proj_name percent feature_str minutes_left_text : String) : String :=
  proj_name ++ ": " ++ percent ++ " of " ++ feature_str ++ " used — " ++ minutes_left_text ++ " left"

/-- The plain-text body (lines 129–139).  `usedText` is the already-rendered
optional "Minutes used" line; note that in the source it ends in the two
characters `\` `n` (the escape `'\\n'` inside the f-string), not a newline. -/
def text_body_of (proj_name percent feature_str minutes_left_text usedText : String) : String :=
  "Hi,\n\n" ++
  "Good to know: your project **" ++ proj_name ++ "** has now used " ++ percent ++
    " of its " ++ feature_str ++ ".\n\n" ++
  "• Minutes left: " ++ minutes_left_text ++ "\n" ++
  usedText ++
  "\nWhat can you do next?\n" ++
  "• Upgrade your plan or top-up minutes\n" ++
  "• Keep an eye on usage in your dashboard: " ++ DASHBOARD_URL ++ "\n" ++
  "• Need a hand? We’re here to help: " ++ SUPPORT_EMAIL ++ "\n\n" ++
  "— The Nabrah Team"

/-- The HTML body (lines 142–191), `.strip()` applied as in the source.
`usedDiv` is the already-rendered optional "Used:" block. -/
def html_body_of (proj_name percent feature_str minutes_left_text usedDiv : String) : String :=
  pyStrip ("\n<!doctype html>\n<html>\n  <head>\n    <meta charset=\"utf-8\" />\n    <title>Usage Alert</title>\n  </head>\n  <body style=\"margin:0;padding:0;background:#f7f7fb;\">\n    <table role=\"presentation\" width=\"100%\" cellspacing=\"0\" cellpadding=\"0\" style=\"font-family:system-ui,-apple-system,Segoe UI,Roboto,Helvetica,Arial,sans-serif;\">\n      <tr>\n        <td align=\"center\" style=\"padding:24px;\">\n          <table width=\"600\" style=\"max-width:600px;background:#ffffff;border-radius:12px;overflow:hidden;border:1px solid #eee;\">\n            <tr><td style=\"padding:24px;\">\n              <h2 style=\"margin:0 0 12px 0;color:#111;\">Heads up 👋</h2>\n              <p style=\"margin:0 0 20px 0;color:#444;line-height:1.55;\">\n                <strong>" ++
    proj_name ++ "</strong> has used <strong>" ++ percent ++ "</strong> of its <strong>" ++
    feature_str ++ "</strong>.\n              </p>\n\n              <div style=\"display:inline-block;padding:10px 14px;border-radius:999px;background:#f0f4ff;color:#1b47ff;margin-bottom:16px;font-weight:600;\">\n                " ++
    minutes_left_text ++ " remaining\n              </div>\n              " ++
    usedDiv ++ "\n\n              <hr style=\"border:none;border-top:1px solid #eee;margin:16px 0;\" />\n\n              <h3 style=\"margin:0 0 8px 0;color:#111;\">What can I do?</h3>\n              <ul style=\"padding-left:18px;margin:6px 0 16px 0;color:#444;line-height:1.6;\">\n                <li>Upgrade your plan or top-up minutes</li>\n                <li>Keep an eye on usage in your dashboard</li>\n                <li>Need help? Reach out any time</li>\n              </ul>\n\n              <a href=\"" ++
    DASHBOARD_URL ++ "\"\n                 style=\"display:inline-block;background:#1b47ff;color:#fff;text-decoration:none;padding:10px 16px;border-radius:8px;font-weight:600;\">\n                Open dashboard\n              </a>\n\n              <p style=\"color:#777;margin:20px 0 0 0;font-size:13px;\">\n                Questions? Email us at <a href=\"mailto:" ++
    SUPPORT_EMAIL ++ "\" style=\"color:#1b47ff;text-decoration:none;\">" ++ SUPPORT_EMAIL ++
    "</a>.\n              </p>\n\n              <p style=\"color:#999;margin:16px 0 0 0;font-size:12px;\">— The Nabrah Team</p>\n            </td></tr>\n          </table>\n        </td>\n      </tr>\n    </table>\n  </body>\n</html>\n    ")

/-- The dict handed to `resend.Emails.send` (lines 201–207). -/
structure EmailMsg where
  sender : String
  toAddr : List JValue
  subject : String
  text : String
  html : String

/-- What one invocation of the route returns: the attempted send, if any, and
the HTTP response body and status. -/
structure HandlerResult where
  sent : Option EmailMsg
  body : String
  status : Nat

/-- Lines 105–191: everything computed for a threshold event up to the send —
recipient, subject line, plain-text and HTML bodies. -/
def build_message (event : JValue) (lookup : String → HttpResult) :
    Except PyErr EmailMsg := do
  let data := pyOrD (← pyGet event "data") (jobj [])
  let feature ← feature_name data
  let _meter ← meter_slug data
  let subject := pyOrD (← pyGet data "subject") (jobj [])
  let threshold_val ← pyGet (pyOrD (← pyGet data "threshold") (jobj [])) "value"
  let balance_left ← pyGet (pyOrD (← pyGet data "value") (jobj [])) "balance"
  let usage_val ← pyGet (pyOrD (← pyGet data "value") (jobj [])) "usage"
  let customer ← resolve_customer subject lookup
  let (to_email, _src) ← pick_email customer
  let proj_name ← project_name_from customer subject
  let minutes_left_text ← nice_minutes balance_left
  let percent := percent_text threshold_val
  let subject_line := subject_line_of proj_name percent (pyStr feature) minutes_left_text
  let usedText ← (match usage_val with
    | jnull => pure ""
    | u => do pure ("• Minutes used: " ++ (← nice_minutes u) ++ "\\n"))
  let usedDiv ← (match usage_val with
    | jnull => pure ""
    | u => do
      pure ("<div style=\x27color:#666;margin-bottom:16px;\x27>Used: <strong>" ++
        (← nice_minutes u) ++ "</strong></div>"))
  pure {
    sender := "Nabrah <no-reply@nabrah.ai>"
    toAddr := [to_email]
    subject := subject_line
    text := text_body_of proj_name percent (pyStr feature) minutes_left_text usedText
    html := html_body_of proj_name percent (pyStr feature) minutes_left_text usedDiv }

/-- The webhook handler `handle_openmeter` (lines 96–212).  `lookup` gives the
outcome of the OpenMeter GET per customer key; `sendFails` is whether
`resend.Emails.send` raises — the `try/except` of lines 200–211 swallows the
failure, so it cannot influence the result.  An `Except.error` outcome models
an uncaught Python exception escaping the handler (Flask then answers 500). -/
def handle_openmeter (event : JValue) (lookup : String → HttpResult)
    (sendFails : Bool) : Except PyErr HandlerResult := do
  let t ← pyGet event "type"
  if pyEqStr t "entitlements.balance.threshold" then do
    let msg ← build_message event lookup
    let _sendOutcome := sendFails
    pure { sent := some msg, body := "", status := 200 }
  else
    pure { sent := none, body := "", status := 200 }

/-- HTTP response (body, status) of a handler run, `none` when it raised. -/
def respOf : Except PyErr HandlerResult → Option (String × Nat)
  | .ok r => some (r.body, r.status)
  | .error _ => none

/-- Subject line of the email the handler tried to send, if any. -/
def sentSubject (r : Except PyErr HandlerResult) : Option String :=
  match r with
  | .ok { sent := some m, .. } => some m.subject
  | _ => none

/-- Recipient list of the email the handler tried to send, if any. -/
def sentTo (r : Except PyErr HandlerResult) : Option (List JValue) :=
  match r with
  | .ok { sent := some m, .. } => some m.toAddr
  | _ => none

/-- A customer-directory lookup that always fails at transport level. -/
def lookupDown : String → HttpResult := fun _ => HttpResult.exn

/-- Threshold event carrying an inline `subject.email` of `a@x.com` next to a
subject id, used for the resolver-precedence scenario. -/
def evtC1 : JValue := jobj [("type", jstr "entitlements.balance.threshold"),
  ("data", jobj [("subject", jobj [("id", jstr "k1"), ("email", jstr "a@x.com")])])]

/-- Same event with the inline `email` field replaced by an arbitrary value. -/
def evtC1With (em : JValue) : JValue := jobj [("type", jstr "entitlements.balance.threshold"),
  ("data", jobj [("subject", jobj [("id", jstr "k1"), ("email", em)])])]

/-- Lookup oracle answering every key with a customer whose `primaryEmail` is
`b@x.com`. -/
def lkB : String → HttpResult :=
  fun _ => .resp 200 (.ok (jobj [("primaryEmail", jstr "b@x.com")]))

/-- Threshold event with `threshold.value = 75` and `value.hasAccess = false`
(the exhaustion-override scenario). -/
def evtC2 : JValue := jobj [("type", jstr "entitlements.balance.threshold"),
  ("data", jobj [("subject", jobj [("key", jstr "abc")]),
    ("threshold", jobj [("type", jstr "PERCENT"), ("value", jint 75)]),
    ("value", jobj [("hasAccess", jbool false)])])]

/-- The same event with an arbitrary `value.hasAccess`. -/
def evtC2With (ha : JValue) : JValue := jobj [("type", jstr "entitlements.balance.threshold"),
  ("data", jobj [("subject", jobj [("key", jstr "abc")]),
    ("threshold", jobj [("type", jstr "PERCENT"), ("value", jint 75)]),
    ("value", jobj [("hasAccess", ha)])])]

/-- An event of type `notification.test`. -/
def evtTest : JValue := jobj [("type", jstr "notification.test")]

/-- Threshold event whose `subject.id` is the number `5` (a non-string). -/
def evtC5 : JValue := jobj [("type", jstr "entitlements.balance.threshold"),
  ("data", jobj [("subject", jobj [("id", jint 5)])])]

/-- Threshold event whose `value.balance` is a string. -/
def evtC7 : JValue := jobj [("type", jstr "entitlements.balance.threshold"),
  ("data", jobj [("value", jobj [("balance", jstr "many")])])]

/-- Helper: `x or {}` is the identity on dicts. -/
theorem pyOrD_jobj_empty (f : List (String × JValue)) : pyOrD (jobj f) (jobj []) = jobj f := by
  unfold pyOrD pyTruthy
  cases f <;> simp

/-- Helper: string append is associative. -/
theorem strAppend_assoc (a b c : String) : a ++ b ++ c = a ++ (b ++ c) := by
  cases a with | mk la =>
  cases b with | mk lb =>
  cases c with | mk lc =>
  show String.mk (la ++ lb ++ lc) = String.mk (la ++ (lb ++ lc))
  rw [List.append_assoc]

/-- Helper: decimal length of the numbers below 100. -/
theorem nat_repr_len : ∀ k, k < 100 → (Nat.repr k).length = if k < 10 then 1 else 2 := by
  decide

/-- Helper: length of a string append. -/
theorem strLen_append (a b : String) : (a ++ b).length = a.length + b.length := by
  cases a with | mk la =>
  cases b with | mk lb =>
  show (la ++ lb).length = la.length + lb.length
  exact List.length_append la lb

/-- Helper: `dict.get` on an object literal. -/
theorem pyGet_jobj (fs : List (String × JValue)) (k : String) :
    pyGet (jobj fs) k = .ok (jobjGet fs k) := rfl

/-- Helper: a non-empty dict is truthy. -/
theorem pyTruthy_jobj_cons (x : String × JValue) (l : List (String × JValue)) :
    pyTruthy (jobj (x :: l)) = true := rfl

/-- C1 is false on the code: with `subject.email = "a@x.com"` inline and the
directory answering `primaryEmail = "b@x.com"`, the handler addresses the
email to `b@x.com`, not `a@x.com` — inline subject fields do not take
precedence over the remote lookup. -/
theorem C1_counterexample :
    sentTo (handle_openmeter evtC1 lkB true) = some [jstr "b@x.com"] ∧
    sentTo (handle_openmeter evtC1 lkB true) ≠ some [jstr "a@x.com"] := by
  refine ⟨rfl, ?_⟩
  intro h
  rw [show sentTo (handle_openmeter evtC1 lkB true) = some [jstr "b@x.com"] from rfl] at h
  simp at h

/-- C1 amended: the resolution step never consults `subject.email` — the
handler behaves identically for every value of that field — and from the
directory record it selects `primaryEmail` whenever it is non-empty. -/
theorem C1_resolution (em : JValue) (p : String) (hp : p ≠ "") :
    handle_openmeter (evtC1With em) lkB true = handle_openmeter evtC1 lkB true ∧
    pick_email (some (jobj [("primaryEmail", jstr p)])) = .ok (jstr p, "primaryEmail") := by
  constructor
  · rfl
  · simp [pick_email, pyGet, jobjGet, pyTruthy, Bind.bind, Except.bind, Pure.pure,
      Except.pure, hp]

/-- C1 amended, witnessed at `em = None` and `p = "b@x.com"`. -/
theorem C1_resolution_witness :
    handle_openmeter (evtC1With jnull) lkB true = handle_openmeter evtC1 lkB true ∧
    pick_email (some (jobj [("primaryEmail", jstr "b@x.com")])) =
      .ok (jstr "b@x.com", "primaryEmail") :=
  C1_resolution jnull "b@x.com" (by decide)

/-- C2 is false on the code: with `threshold.value = 75` and
`value.hasAccess = false` the composed subject still shows the 75% figure and
mentions 100 nowhere — there is no exhaustion override. -/
theorem C2_counterexample :
    sentSubject (handle_openmeter evtC2 lookupDown true) =
      some "Your project: 75% of Call Minutes used — unknown left" ∧
    strContains "Your project: 75% of Call Minutes used — unknown left" "75%" = true ∧
    strContains "Your project: 75% of Call Minutes used — unknown left" "100" = false :=
  ⟨rfl, by decide, by decide⟩

/-- C2 amended: the subject line reflects the raw `threshold.value` and is
entirely independent of `value.hasAccess`. -/
theorem C2_no_override (ha ha2 : JValue) :
    handle_openmeter (evtC2With ha) lookupDown true =
      handle_openmeter (evtC2With ha2) lookupDown true ∧
    sentSubject (handle_openmeter (evtC2With ha) lookupDown true) =
      some "Your project: 75% of Call Minutes used — unknown left" :=
  ⟨rfl, rfl⟩

/-- C3 is false on the code: the threshold value is not parsed at all, only
interpolated, so `"90%"` renders differently from `90`, and a missing value
renders as `None%`, never as `?`. -/
theorem C3_counterexample :
    percent_text (jstr "90%") = "90%%" ∧
    percent_text (jint 90) = "90%" ∧
    ("90%%" : String) ≠ "90%" ∧
    percent_text jnull = "None%" ∧
    strContains (percent_text jnull) "?" = false :=
  ⟨rfl, rfl, by decide, rfl, by decide⟩

/-- C3 amended: the composer interpolates the raw value with a trailing `%`:
`"90"` and `90` agree (`90%`), but `"90%"` gives `90%%`, `90.0` gives `90.0%`
and a missing value gives `None%`; the unparsable case flows into the rendered
subject instead of failing. -/
theorem C3_render :
    percent_text (jstr "90") = "90%" ∧
    percent_text (jint 90) = "90%" ∧
    percent_text (jfloat 90) = "90.0%" ∧
    percent_text (jstr "90%") = "90%%" ∧
    percent_text jnull = "None%" ∧
    sentSubject (handle_openmeter evtC1 lkB true) =
      some "k1…: None% of Call Minutes used — unknown left" :=
  ⟨rfl, rfl, rfl, rfl, rfl, rfl⟩

/-- C4 is false on the code: a `notification.test` event is ignored — the
handler returns an empty 200 response and makes no email-send call. -/
theorem C4_counterexample :
    handle_openmeter evtTest lookupDown true =
      .ok { sent := none, body := "", status := 200 } ∧
    sentTo (handle_openmeter evtTest lookupDown true) = none :=
  ⟨rfl, rfl⟩

/-- C4 amended: every event whose `type` is not the threshold type — which
includes `notification.test` — is a no-op: no send attempt, empty 200
response. -/
theorem C4_ignored (fs : List (String × JValue)) (lk : String → HttpResult) (s : Bool)
    (h : pyEqStr (jobjGet fs "type") "entitlements.balance.threshold" = false) :
    handle_openmeter (jobj fs) lk s = .ok { sent := none, body := "", status := 200 } := by
  simp [handle_openmeter, pyGet, Bind.bind, Except.bind, Pure.pure, Except.pure, h]

/-- C4 amended, witnessed at the `notification.test` event. -/
theorem C4_ignored_witness :
    handle_openmeter (jobj [("type", jstr "notification.test")]) lookupDown true =
      .ok { sent := none, body := "", status := 200 } :=
  C4_ignored [("type", jstr "notification.test")] lookupDown true (by decide)

/-- C5 is false on the code: a threshold event whose `subject.id` is the
number `5` makes the resolution step raise `AttributeError` (at
`subject_key.replace`), so the handler raises instead of falling back. -/
theorem C5_counterexample :
    resolve (jobj [("id", jint 5)]) lookupDown = .error .attributeError ∧
    handle_openmeter evtC5 lookupDown true = .error .attributeError :=
  ⟨rfl, rfl⟩

/-- C5 amended: when the subject is a dict whose `id` and `key` are absent or
falsy, resolution is exception-free and returns the static fallback address
(no lookup is even attempted); totality fails only for truthy non-string
ids/keys. -/
theorem C5_fallback (fs : List (String × JValue)) (lk : String → HttpResult)
    (h1 : pyTruthy (jobjGet fs "id") = false)
    (h2 : pyTruthy (jobjGet fs "key") = false) :
    resolve (jobj fs) lk = .ok (jstr FALLBACK_EMAIL, "fallback(no customer)") := by
  unfold resolve resolve_customer
  simp only [pyGet, Bind.bind, Except.bind, h1, if_false, Bool.false_eq_true]
  simp only [pyOrD, h2, if_false, Bool.false_eq_true, Pure.pure, Except.pure]
  simp [pick_email, pyTruthy, Bind.bind, Except.bind, Pure.pure, Except.pure]

/-- C5 amended, witnessed at the empty subject. -/
theorem C5_fallback_witness :
    resolve (jobj []) lookupDown = .ok (jstr FALLBACK_EMAIL, "fallback(no customer)") :=
  C5_fallback [] lookupDown (by decide) (by decide)

/-- C6 is false as stated: the code tests `r.ok` (status < 400), not 2xx, so a
302 response carrying a parseable JSON body is treated as a found customer
rather than as "not found". -/
theorem C6_counterexample :
    om_get_customer (.resp 302 (.ok (jobj [("primaryEmail", jstr "x@y.z")]))) =
      some (jobj [("primaryEmail", jstr "x@y.z")]) ∧
    om_get_customer (.resp 302 (.ok (jobj [("primaryEmail", jstr "x@y.z")]))) ≠ none := by
  refine ⟨rfl, ?_⟩
  rw [show om_get_customer (.resp 302 (.ok (jobj [("primaryEmail", jstr "x@y.z")]))) =
    some (jobj [("primaryEmail", jstr "x@y.z")]) from rfl]
  simp

/-- C6 amended: transport errors and timeouts, every status of at least 400,
and malformed response bodies are all answered with `None` (never an
exception, by totality of `om_get_customer`); `pick_email` then proceeds to
the fallback, and the request carries a bounded 15-second timeout. -/
theorem C6_lookup_failures :
    om_get_customer .exn = none ∧
    (∀ s b, 400 ≤ s → om_get_customer (.resp s b) = none) ∧
    (∀ s e, om_get_customer (.resp s (.error e)) = none) ∧
    pick_email none = .ok (jstr FALLBACK_EMAIL, "fallback(no customer)") ∧
    OM_TIMEOUT_SECONDS = 15 := by
  refine ⟨rfl, ?_, ?_, rfl, rfl⟩
  · intro s b h
    have hn : ¬ (s < 400) := by omega
    simp [om_get_customer, response_ok, hn]
  · intro s e
    by_cases h : s < 400 <;> simp [om_get_customer, response_ok, h]

/-- C6 amended, witnessed at a 500 response and at a 200 response with a
malformed body. -/
theorem C6_lookup_failures_witness :
    om_get_customer (.resp 500 (.ok jnull)) = none ∧
    om_get_customer (.resp 200 (.error ())) = none :=
  ⟨C6_lookup_failures.2.1 500 (.ok jnull) (by decide),
   C6_lookup_failures.2.2.1 200 ()⟩

/-- C7 is false on the code: the parsable body
`{"type": threshold, "data": {"value": {"balance": "many"}}}` makes the
handler raise `TypeError` inside `nice_minutes`, so the caller does not get
an empty 200 response. -/
theorem C7_counterexample :
    handle_openmeter evtC7 lookupDown true = .error .typeError ∧
    respOf (handle_openmeter evtC7 lookupDown true) ≠ some ("", 200) := by
  refine ⟨rfl, ?_⟩
  rw [show handle_openmeter evtC7 lookupDown true = .error .typeError from rfl]
  simp [respOf]

/-- C7 amended: the outcome of the email send can never change the handler
result, and whenever the handler completes without an exception it responds
with an empty body and status 200. -/
theorem C7_response (e : JValue) (lk : String → HttpResult) :
    handle_openmeter e lk true = handle_openmeter e lk false ∧
    (∀ r, handle_openmeter e lk true = .ok r → r.body = "" ∧ r.status = 200) := by
  constructor
  · rfl
  · intro r h
    unfold handle_openmeter at h
    cases hget : pyGet e "type" with
    | error err =>
      rw [hget] at h
      simp [Bind.bind, Except.bind] at h
    | ok t =>
      rw [hget] at h
      simp only [Bind.bind, Except.bind] at h
      by_cases hc : pyEqStr t "entitlements.balance.threshold" = true
      · rw [if_pos hc] at h
        cases hb : build_message e lk with
        | error err =>
          rw [hb] at h
          simp [Bind.bind, Except.bind] at h
        | ok msg =>
          rw [hb] at h
          simp only [Bind.bind, Except.bind, Pure.pure, Except.pure, Except.ok.injEq] at h
          rw [← h]
          exact ⟨rfl, rfl⟩
      · rw [if_neg hc] at h
        simp only [Pure.pure, Except.pure, Except.ok.injEq] at h
        rw [← h]
        exact ⟨rfl, rfl⟩

/-- C7 amended, witnessed at the empty event. -/
theorem C7_response_witness :
    handle_openmeter (jobj []) lookupDown true = handle_openmeter (jobj []) lookupDown false ∧
    (({ sent := none, body := "", status := 200 } : HandlerResult).body = "" ∧
     ({ sent := none, body := "", status := 200 } : HandlerResult).status = 200) :=
  ⟨(C7_response (jobj []) lookupDown).1,
   (C7_response (jobj []) lookupDown).2 { sent := none, body := "", status := 200 } (by rfl)⟩

/-- C8 is false on the code: `0.004` is not an integer (its denominator is
250), yet `nice_minutes` renders it as `0 minutes`, with no decimal places —
any value within `0.01` of its rounded integer is collapsed by the `isclose`
test. -/
theorem C8_counterexample :
    nice_minutes (jfloat (mkRat 1 250)) = .ok "0 minutes" ∧
    (mkRat 1 250).den ≠ 1 ∧
    strContains "0 minutes" "." = false :=
  ⟨rfl, by decide, by decide⟩

/-- C8 amended: integer values render with no decimal places; float values
within `0.01` of their rounded integer also render as that integer with no
decimals; all other float values render with exactly two decimal places. -/
theorem C8_formatting :
    (∀ n : ℤ, nice_minutes (jint n) = .ok (nice_whole n)) ∧
    (∀ q : ℚ, iscloseCent (roundHalfEven q) q = true →
      nice_minutes (jfloat q) = .ok (nice_whole (roundHalfEven q))) ∧
    (∀ q : ℚ, iscloseCent (roundHalfEven q) q = false →
      nice_minutes (jfloat q) = .ok (fmt2 q ++ " minutes") ∧
      ∃ intPart fracPart : String,
        fmt2 q = intPart ++ "." ++ fracPart ∧ fracPart.length = 2) := by
  refine ⟨fun n => rfl, fun q h => ?_, fun q h => ?_⟩
  · simp [nice_minutes, h]
  · refine ⟨by simp [nice_minutes, h], ?_⟩
    unfold fmt2
    set c := roundHE (100 * q.num) q.den with hc
    refine ⟨(if c < 0 then "-" else "") ++ toString (c.natAbs / 100),
      (if c.natAbs % 100 < 10 then "0" else "") ++ toString (c.natAbs % 100), ?_, ?_⟩
    · rw [strAppend_assoc]
    · have hlt : c.natAbs % 100 < 100 := Nat.mod_lt _ (by norm_num)
      by_cases h10 : c.natAbs % 100 < 10
      · have ht : (toString (c.natAbs % 100)).length = 1 := by
          have hr := nat_repr_len (c.natAbs % 100) hlt
          rw [if_pos h10] at hr
          exact hr
        rw [if_pos h10, strLen_append, ht]
        rfl
      · have ht : (toString (c.natAbs % 100)).length = 2 := by
          have hr := nat_repr_len (c.natAbs % 100) hlt
          rw [if_neg h10] at hr
          exact hr
        rw [if_neg h10, strLen_append, ht]
        rfl

/-- C8 amended, witnessed at `5`, `0.004` and `0.5`. -/
theorem C8_formatting_witness :
    nice_minutes (jint 5) = .ok "5 minutes" ∧
    nice_minutes (jfloat (mkRat 1 250)) = .ok "0 minutes" ∧
    nice_minutes (jfloat (mkRat 1 2)) = .ok "0.50 minutes" :=
  ⟨C8_formatting.1 5, C8_formatting.2.1 (mkRat 1 250) (by decide),
   (C8_formatting.2.2 (mkRat 1 2) (by decide)).1⟩

/-- C9 is false on the code: when the feature carries neither a name nor a
key, the default is `"Call Minutes"`, not `"Unknown feature"`. -/
theorem C9_counterexample :
    feature_name (jobj []) = .ok (jstr "Call Minutes") ∧
    feature_name (jobj []) ≠ .ok (jstr "Unknown feature") := by
  refine ⟨rfl, ?_⟩
  rw [show feature_name (jobj []) = .ok (jstr "Call Minutes") from rfl]
  simp

/-- C9 amended: `feature.name` is preferred over `feature.key`, and when both
are absent or falsy the default feature name is `"Call Minutes"`. -/
theorem C9_feature_choice (f : List (String × JValue)) :
    (pyTruthy (jobjGet f "name") = true →
      feature_name (jobj [("feature", jobj f)]) = .ok (jobjGet f "name")) ∧
    (pyTruthy (jobjGet f "name") = false → pyTruthy (jobjGet f "key") = true →
      feature_name (jobj [("feature", jobj f)]) = .ok (jobjGet f "key")) ∧
    (pyTruthy (jobjGet f "name") = false → pyTruthy (jobjGet f "key") = false →
      feature_name (jobj [("feature", jobj f)]) = .ok (jstr "Call Minutes")) := by
  have hfeat : pyGet (jobj [("feature", jobj f)]) "feature" = .ok (jobj f) := by
    rw [pyGet_jobj]
    rfl
  refine ⟨fun h1 => ?_, fun h1 h2 => ?_, fun h1 h2 => ?_⟩
  · unfold feature_name
    rw [hfeat]
    simp only [Bind.bind, Except.bind, pyOrD_jobj_empty, pyGet_jobj, h1, if_true,
      Pure.pure, Except.pure]
  · unfold feature_name
    rw [hfeat]
    simp only [Bind.bind, Except.bind, pyOrD_jobj_empty, pyGet_jobj, h1, Bool.false_eq_true,
      if_false, Pure.pure, Except.pure]
    simp [pyOrD, h2]
  · unfold feature_name
    rw [hfeat]
    simp only [Bind.bind, Except.bind, pyOrD_jobj_empty, pyGet_jobj, h1, Bool.false_eq_true,
      if_false, Pure.pure, Except.pure]
    simp [pyOrD, h2]

/-- C9 amended, witnessed with a name-and-key feature, a key-only feature and
an empty-name feature. -/
theorem C9_feature_choice_witness :
    feature_name (jobj [("feature",
        jobj [("name", jstr "Call Minutes"), ("key", jstr "call_minutes")])]) =
      .ok (jstr "Call Minutes") ∧
    feature_name (jobj [("feature", jobj [("key", jstr "call_minutes")])]) =
      .ok (jstr "call_minutes") ∧
    feature_name (jobj [("feature", jobj [("name", jstr "")])]) = .ok (jstr "Call Minutes") :=
  ⟨(C9_feature_choice _).1 (by decide),
   (C9_feature_choice _).2.1 (by decide) (by decide),
   (C9_feature_choice _).2.2 (by decide) (by decide)⟩

/-- C10 is false in its non-emptiness part: a customer whose `name` is the
single space strips to the empty string, so the project name can be empty. -/
theorem C10_counterexample :
    project_name_from (some (jobj [("name", jstr " ")])) (jobj []) = .ok "" ∧
    ("" : String).length = 0 :=
  ⟨rfl, rfl⟩

/-- C10 amended: the fallback chain is `customer.name`, else
`subject.displayName` (both str()-converted and whitespace-stripped), else the
first 12 characters of `subject.id` followed by an ellipsis, else
`"Your project"` — but the result is not always non-empty. -/
theorem C10_project_chain (cf sf : List (String × JValue)) :
    (pyTruthy (jobjGet cf "name") = true →
      project_name_from (some (jobj cf)) (jobj sf) =
        .ok (pyStrip (pyStr (jobjGet cf "name")))) ∧
    (pyTruthy (jobjGet cf "name") = false →
      project_name_from (some (jobj cf)) (jobj sf) = project_name_from none (jobj sf)) ∧
    (pyTruthy (jobjGet sf "displayName") = true →
      project_name_from none (jobj sf) = .ok (pyStrip (pyStr (jobjGet sf "displayName")))) ∧
    (pyTruthy (jobjGet sf "displayName") = false → pyTruthy (jobjGet sf "id") = true →
      project_name_from none (jobj sf) =
        .ok (String.mk ((pyStr (jobjGet sf "id")).toList.take 12) ++ "…")) ∧
    (pyTruthy (jobjGet sf "displayName") = false → pyTruthy (jobjGet sf "id") = false →
      project_name_from none (jobj sf) = .ok "Your project") := by
  refine ⟨fun h1 => ?_, fun h1 => ?_, fun h2 => ?_, fun h2 h3 => ?_, fun h2 h3 => ?_⟩
  · cases cf with
    | nil => simp [jobjGet, pyTruthy] at h1
    | cons x l =>
      unfold project_name_from
      simp only [pyTruthy_jobj_cons, if_true, pyGet_jobj, Bind.bind, Except.bind, h1,
        Pure.pure, Except.pure]
  · cases cf with
    | nil =>
      unfold project_name_from
      simp only [show pyTruthy (jobj []) = false from rfl, Bool.false_eq_true, if_false,
        Bind.bind, Except.bind, Pure.pure, Except.pure]
    | cons x l =>
      unfold project_name_from
      simp only [pyTruthy_jobj_cons, if_true, pyGet_jobj, Bind.bind, Except.bind, h1,
        show pyTruthy jnull = false from rfl, Bool.false_eq_true, if_false,
        Pure.pure, Except.pure]
  · cases sf with
    | nil => simp [jobjGet, pyTruthy] at h2
    | cons x l =>
      unfold project_name_from
      simp only [pyTruthy_jobj_cons, if_true, pyGet_jobj, Bind.bind, Except.bind, h2,
        show pyTruthy jnull = false from rfl, Bool.false_eq_true, if_false,
        Pure.pure, Except.pure]
  · cases sf with
    | nil => simp [jobjGet, pyTruthy] at h3
    | cons x l =>
      unfold project_name_from
      simp only [pyTruthy_jobj_cons, if_true, pyGet_jobj, Bind.bind, Except.bind, h2, h3,
        show pyTruthy jnull = false from rfl, Bool.false_eq_true, if_false, if_true,
        Pure.pure, Except.pure]
  · cases sf with
    | nil =>
      unfold project_name_from
      simp only [show pyTruthy (jobj []) = false from rfl, Bool.false_eq_true, if_false,
        show pyTruthy jnull = false from rfl, Bind.bind, Except.bind, Pure.pure, Except.pure]
    | cons x l =>
      unfold project_name_from
      simp only [pyTruthy_jobj_cons, if_true, pyGet_jobj, Bind.bind, Except.bind, h2, h3,
        show pyTruthy jnull = false from rfl, Bool.false_eq_true, if_false,
        Pure.pure, Except.pure]

/-- C10 amended, witnessed at each stage of the chain. -/
theorem C10_project_chain_witness :
    project_name_from (some (jobj [("name", jstr " Dana ")])) (jobj []) = .ok "Dana" ∧
    project_name_from none (jobj [("displayName", jstr "My Project")]) = .ok "My Project" ∧
    project_name_from none (jobj [("id", jstr "abcdefghijklmnop")]) = .ok "abcdefghijkl…" ∧
    project_name_from none (jobj []) = .ok "Your project" :=
  ⟨(C10_project_chain [("name", jstr " Dana ")] []).1 (by decide),
   (C10_project_chain [] [("displayName", jstr "My Project")]).2.2.1 (by decide),
   (C10_project_chain [] [("id", jstr "abcdefghijklmnop")]).2.2.2.1 (by decide) (by decide),
   (C10_project_chain [] []).2.2.2.2 (by decide) (by decide)⟩
